import Mathlib

/-!
Verification development for the `ds3231.py` MicroPython RTC driver
(conradstorz/micropython-DS3231-AT24C32).

The device is modelled as an idealized register file `Regs : Nat → Nat`:
a block read returns the bytes last written (`readfrom_mem* ↦ s a`,
`writeto_mem ↦ writeReg / writeBlock`).  Register values are natural
numbers; the device holds bytes, so theorems about read-modify-write
operations carry `< 256` hypotheses where the modelling of Python's
`~` (two's-complement bitwise not) needs them.

Python-to-Lean notes, each marked again at the definition it concerns:
* a MicroPython `bytearray` item assignment `buf[i] = v` raises
  `ValueError` unless `0 ≤ v < 256`; `byteStore` models this check,
  so driver operations that build a buffer return `Option`;
* `int(str(n)[-2:])` (last two decimal digits) equals `n % 100` for
  every natural `n`;
* `status & ~alarm` on byte-valued `status` equals
  `status &&& (255 ^^^ alarm)`;
* the Python method `datetime` both reads (argument `None`) and writes
  (tuple argument); it is split here into `datetimeGet`/`datetimeSet`,
  with `datetimeSet` taking the full 7-tuple
  `(year, month, day, hour, minute, second, weekday)`.
-/

namespace DS3231

/-- Register address constants from the source. -/
def DATETIME_REG : Nat := 0

/-- Alarm-1 register base (source line 36). -/
def ALARM1_REG : Nat := 7

/-- Alarm-2 register base (source line 37). -/
def ALARM2_REG : Nat := 11

/-- Control register address (source line 38). -/
def CONTROL_REG : Nat := 14

/-- Status register address (source line 39). -/
def STATUS_REG : Nat := 15

/-- Alarm-1 match-mode constants (source lines 87–91). -/
def AL1_EVERY_S : Nat := 15

/-- Match seconds (source line 88). -/
def AL1_MATCH_S : Nat := 14

/-- Match minutes and seconds (source line 89). -/
def AL1_MATCH_MS : Nat := 12

/-- Match hours, minutes and seconds (source line 90). -/
def AL1_MATCH_HMS : Nat := 8

/-- Match day/date, hours, minutes and seconds (source line 91). -/
def AL1_MATCH_DHMS : Nat := 0

/-- `dectobcd` (source lines 46–54): pack tens digit into the high
nibble and ones digit into the low nibble. -/
def dectobcd (decimal : Nat) : Nat :=
  ((decimal / 10) <<< 4) ||| (decimal % 10)

/-- `bcdtodec` (source lines 56–64): high nibble is tens, low nibble
is ones. -/
def bcdtodec (bcd : Nat) : Nat :=
  ((bcd >>> 4) &&& 0x0F) * 10 + (bcd &&& 0x0F)

/-- The device register file under the idealized transport: address
to last-written byte. -/
abbrev Regs := Nat → Nat

/-- Write one register (one-byte `writeto_mem`). -/
def writeReg (s : Regs) (a v : Nat) : Regs :=
  fun x => if x = a then v else s x

/-- Block write starting at address `a` (multi-byte `writeto_mem`). -/
def writeBlock (s : Regs) (a : Nat) : List Nat → Regs
  | [] => s
  | v :: vs => writeBlock (writeReg s a v) (a + 1) vs

/-- MicroPython `bytearray` item assignment: stores `v` if it is a
byte, otherwise raises `ValueError` (modelled as `none`). -/
def byteStore (v : Nat) : Option Nat :=
  if v < 256 then some v else none

/-- Hour decoding of `datetime` (source lines 140–149): if bit 6 of
the raw hour register is set the chip is in 12-hour mode, so mask to
the 5-bit BCD field and add 12 when the PM bit (bit 5) is set;
otherwise mask bit 6 away and decode directly. -/
def decodeHour (hr : Nat) : Nat :=
  if hr &&& 0x40 ≠ 0 then
    (if hr &&& 0x20 ≠ 0 then bcdtodec (hr &&& 0x1F) + 12
     else bcdtodec (hr &&& 0x1F))
  else
    bcdtodec (hr &&& 0x3F)

/-- The 8-tuple returned by `datetime()` with no argument. -/
structure DateTime8 where
  year : Nat
  month : Nat
  day : Nat
  weekday : Nat
  hour : Nat
  minute : Nat
  second : Nat
  subseconds : Nat
deriving Repr, DecidableEq

/-- `datetime()` read path (source lines 122–161): block-read the 7
time registers and decode.  The oscillator-stop check at line 157 only
prints a warning and does not affect the returned tuple. -/
def datetimeGet (s : Regs) : DateTime8 :=
  { year := bcdtodec (s 6) + 2000
    month := bcdtodec (s 5 &&& 0x7F)
    day := bcdtodec (s 4)
    weekday := bcdtodec (s 3)
    hour := decodeHour (s 2)
    minute := bcdtodec (s 1)
    second := bcdtodec (s 0)
    subseconds := 0 }

/-- `_OSF_reset` (source lines 353–357): read the status register and
write it back with bit 7 cleared. -/
def OSF_reset (s : Regs) : Regs :=
  writeReg s STATUS_REG (s STATUS_REG &&& 0x7F)

/-- `datetime(dt)` write path (source lines 163–190) for a full
7-tuple `(year, month, day, hour, minute, second, weekday)` (so the
`IndexError` defaults for missing second/weekday never fire).  Buffer
cells are filled in source order (weekday, second, minute, hour, day,
month, year); each fill is a `bytearray` assignment, modelled by
`byteStore`.  `int(str(year)[-2:])` equals `year % 100` for every
natural number.  After the 7-byte block write the oscillator-stop
flag is cleared and `True` is returned. -/
def datetimeSet (year month day hour minute second weekday : Nat)
    (s : Regs) : Option (Regs × Bool) := do
  let b3 ← byteStore (dectobcd weekday)
  let b0 ← byteStore (dectobcd second)
  let b1 ← byteStore (dectobcd minute)
  let b2 ← byteStore (dectobcd hour)
  let b4 ← byteStore (dectobcd day)
  let b5 ← byteStore (dectobcd month &&& 0xFF)
  let b6 ← byteStore (dectobcd (year % 100))
  let s1 := writeBlock s DATETIME_REG [b0, b1, b2, b3, b4, b5, b6]
  return (OSF_reset s1, true)

/-- `square_wave(freq)` write path (source lines 192–214).  `freq = 0`
plays the role of Python's falsy `freq=False` (disable); `freq = 1..4`
selects the output frequency.  Read-modify-write of the control
register; returns `True`. -/
def square_wave (freq : Nat) (s : Regs) : Regs × Bool :=
  let ctrl := s CONTROL_REG
  let new :=
    if freq = 0 then (ctrl &&& 0xF8) ||| 0x04
    else (ctrl &&& 0xE3) ||| ((freq - 1) <<< 3)
  (writeReg s CONTROL_REG new, true)

/-- `alarm_int(enable, alarm)` (source lines 287–320): one independent
read-modify-write of the control register per targeted alarm
(`alarm = 0` targets both), then a final read of the control register,
returned alongside the new state. -/
def alarm_int (enable : Bool) (alarm : Nat) (s : Regs) : Regs × Nat :=
  let s1 :=
    if alarm = 0 ∨ alarm = 1 then
      let ctrl := s CONTROL_REG
      let new := if enable then (ctrl &&& 0xFA) ||| 0x05 else ctrl &&& 0xFD
      writeReg s CONTROL_REG new
    else s
  let s2 :=
    if alarm = 0 ∨ alarm = 2 then
      let ctrl := s1 CONTROL_REG
      let new := if enable then (ctrl &&& 0xF9) ||| 0x06 else ctrl &&& 0xFB
      writeReg s1 CONTROL_REG new
    else s1
  (s2, s2 CONTROL_REG)

/-- `check_alarm(alarm)` (source lines 322–335): read the status
register; if `status & alarm` is zero return `False` without writing;
otherwise write back `status & ~alarm` and return `True`.  For
byte-valued `status`, Python's `status & ~alarm` equals
`status &&& (255 ^^^ alarm)`.  The third component logs the writes
issued, as `(address, value)` pairs. -/
def check_alarm (alarm : Nat) (s : Regs) : Regs × Bool × List (Nat × Nat) :=
  let status := s STATUS_REG
  if status &&& alarm = 0 then (s, false, [])
  else
    let cleared := status &&& (255 ^^^ alarm)
    (writeReg s STATUS_REG cleared, true, [(STATUS_REG, cleared)])

/-- `alarm1(time, match, int_en, weekday)` write path (source lines
216–253).  `time` is the (nonempty) tuple of alarm fields; an empty
tuple would raise `IndexError` at `time[0]` (modelled as `none`).
Builds the four alarm bytes (data BCD or-ed with the per-dimension
mask bits `a1m1..a1m4` and, for the day byte, the DY/DT flag), each a
`bytearray` assignment; block-writes them at `ALARM1_REG`; then runs
`alarm_int(int_en, 1)` and `check_alarm(1)`.  Returns the final state
and the four bytes written. -/
def alarm1 (time : List Nat) (mtch : Nat) (int_en : Bool) (weekday : Bool)
    (s : Regs) : Option (Regs × List Nat) :=
  match time with
  | [] => none
  | t0 :: _ =>
    let a1m1 := (mtch &&& 0x01) <<< 7
    let a1m2 := (mtch &&& 0x02) <<< 6
    let a1m3 := (mtch &&& 0x04) <<< 5
    let a1m4 := (mtch &&& 0x08) <<< 4
    let dydt := if weekday then 1 <<< 6 else 0
    do
    let b0 ← byteStore (dectobcd t0 ||| a1m1)
    let b1 ← byteStore
      (if 1 < time.length then dectobcd (time.getD 1 0) ||| a1m2 else a1m2)
    let b2 ← byteStore
      (if 2 < time.length then dectobcd (time.getD 2 0) ||| a1m3 else a1m3)
    let b3 ← byteStore
      (if 3 < time.length then dectobcd (time.getD 3 0) ||| a1m4 ||| dydt
       else a1m4 ||| dydt)
    let s1 := writeBlock s ALARM1_REG [b0, b1, b2, b3]
    let s2 := (alarm_int int_en 1 s1).1
    let s3 := (check_alarm 1 s2).1
    return (s3, [b0, b1, b2, b3])

set_option maxRecDepth 8192

/-! ### Shared helper lemmas and example states -/

/-- All-zero register file. -/
def zeroRegs : Regs := fun _ => 0

/-- A `bytearray` store of a byte value succeeds. -/
lemma byteStore_of_lt {v : Nat} (h : v < 256) : byteStore v = some v :=
  if_pos h

/-- Basic facts about the BCD encoder on its documented domain 0–99:
decoding inverts it, the tens digit sits in the high nibble, the ones
digit in the low nibble, and the result fits in a byte. -/
lemma bcd_facts : ∀ n < 100, bcdtodec (dectobcd n) = n ∧
    dectobcd n >>> 4 = n / 10 ∧ dectobcd n &&& 0x0F = n % 10 ∧
    dectobcd n < 256 := by decide

/-- Reading back a written month byte: the century mask leaves a valid
month's BCD byte intact. -/
lemma month_read_byte : ∀ m < 13,
    bcdtodec ((dectobcd m &&& 0xFF) &&& 0x7F) = m ∧
    dectobcd m &&& 0xFF < 256 := by decide

/-- Reading back a written hour byte: a 24-hour BCD value has bit 6
clear, so `decodeHour` takes the 24-hour branch and inverts it. -/
lemma hour_read_byte : ∀ h < 24, decodeHour (dectobcd h) = h := by decide

/-- Success-path final state of `datetimeSet`: the seven time bytes of
the buffer block-written at `DATETIME_REG`, then the oscillator-stop
flag cleared. -/
def dtWrittenState (year month day hour minute second weekday : Nat)
    (s : Regs) : Regs :=
  OSF_reset (writeBlock s DATETIME_REG
    [dectobcd second, dectobcd minute, dectobcd hour, dectobcd weekday,
     dectobcd day, dectobcd month &&& 0xFF, dectobcd (year % 100)])

/-- When all seven buffer bytes fit, `datetimeSet` succeeds and its
final state is `dtWrittenState`. -/
lemma datetimeSet_eq (year month day hour minute second weekday : Nat)
    (s : Regs)
    (h0 : dectobcd second < 256) (h1 : dectobcd minute < 256)
    (h2 : dectobcd hour < 256) (h3 : dectobcd weekday < 256)
    (h4 : dectobcd day < 256) (h5 : dectobcd month &&& 0xFF < 256)
    (h6 : dectobcd (year % 100) < 256) :
    datetimeSet year month day hour minute second weekday s =
      some (dtWrittenState year month day hour minute second weekday s,
        true) := by
  simp [datetimeSet, byteStore_of_lt h0, byteStore_of_lt h1,
    byteStore_of_lt h2, byteStore_of_lt h3, byteStore_of_lt h4,
    byteStore_of_lt h5, byteStore_of_lt h6, dtWrittenState]

/-- Register reads from the state written by `datetimeSet`. -/
lemma dtWrittenState_read (year month day hour minute second weekday : Nat)
    (s : Regs) :
    dtWrittenState year month day hour minute second weekday s 0 =
      dectobcd second ∧
    dtWrittenState year month day hour minute second weekday s 1 =
      dectobcd minute ∧
    dtWrittenState year month day hour minute second weekday s 2 =
      dectobcd hour ∧
    dtWrittenState year month day hour minute second weekday s 3 =
      dectobcd weekday ∧
    dtWrittenState year month day hour minute second weekday s 4 =
      dectobcd day ∧
    dtWrittenState year month day hour minute second weekday s 5 =
      dectobcd month &&& 0xFF ∧
    dtWrittenState year month day hour minute second weekday s 6 =
      dectobcd (year % 100) ∧
    dtWrittenState year month day hour minute second weekday s STATUS_REG =
      s STATUS_REG &&& 0x7F := by
  simp [dtWrittenState, OSF_reset, writeBlock, writeReg, DATETIME_REG,
    STATUS_REG]

/-- The 7-byte time block write does not touch the status register. -/
lemma writeBlock7_read15 (s : Regs) (b0 b1 b2 b3 b4 b5 b6 : Nat) :
    writeBlock s DATETIME_REG [b0, b1, b2, b3, b4, b5, b6] STATUS_REG =
      s STATUS_REG := by
  simp [writeBlock, writeReg, DATETIME_REG, STATUS_REG]

/-- Clearing bit 7 of a status byte: bit 7 becomes 0 and bits 0–6 are
unchanged. -/
lemma osf_byte : ∀ x < 256,
    (x &&& 0x7F) &&& 0x80 = 0 ∧ (x &&& 0x7F) &&& 0x7F = x &&& 0x7F := by
  decide

/-! ### C1 — time round-trip -/

/-- C1: for every tuple with year 2000–2099, month 1–12, day 1–31,
hour 0–23, minute 0–59, second 0–59, weekday 1–7, and any prior
register state, `datetime(dt)` succeeds returning `True`, and a
subsequent `datetime()` read returns the 8-tuple
`(year, month, day, weekday, hour, minute, second, 0)`. -/
theorem datetime_roundtrip (y mo d h mi sec w : Nat) (s : Regs)
    (hy1 : 2000 ≤ y) (hy2 : y ≤ 2099) (hmo1 : 1 ≤ mo) (hmo2 : mo ≤ 12)
    (hd1 : 1 ≤ d) (hd2 : d ≤ 31) (hh : h ≤ 23) (hmi : mi ≤ 59)
    (hsec : sec ≤ 59) (hw1 : 1 ≤ w) (hw2 : w ≤ 7) :
    datetimeSet y mo d h mi sec w s =
      some (dtWrittenState y mo d h mi sec w s, true) ∧
    datetimeGet (dtWrittenState y mo d h mi sec w s) =
      ⟨y, mo, d, w, h, mi, sec, 0⟩ := by
  have hb : ∀ n < 100, dectobcd n < 256 := fun n hn => (bcd_facts n hn).2.2.2
  have hrt : ∀ n < 100, bcdtodec (dectobcd n) = n :=
    fun n hn => (bcd_facts n hn).1
  have hr := dtWrittenState_read y mo d h mi sec w s
  refine ⟨datetimeSet_eq y mo d h mi sec w s (hb _ (by omega))
    (hb _ (by omega)) (hb _ (by omega)) (hb _ (by omega)) (hb _ (by omega))
    (month_read_byte mo (by omega)).2 (hb _ (by omega)), ?_⟩
  simp only [datetimeGet, hr.1, hr.2.1, hr.2.2.1, hr.2.2.2.1,
    hr.2.2.2.2.1, hr.2.2.2.2.2.1, hr.2.2.2.2.2.2.1]
  simp only [DateTime8.mk.injEq]
  refine ⟨?_, ?_, ?_, ?_, ?_, ?_, ?_, trivial⟩
  · have := hrt (y % 100) (by omega); omega
  · exact (month_read_byte mo (by omega)).1
  · exact hrt d (by omega)
  · exact hrt w (by omega)
  · exact hour_read_byte h (by omega)
  · exact hrt mi (by omega)
  · exact hrt sec (by omega)

/-- C1 witness: the spec's scenario `datetime((2023, 6, 15, 10, 30,
45, 4))` then `datetime()` yields `(2023, 6, 15, 4, 10, 30, 45, 0)`. -/
theorem datetime_roundtrip_witness :
    ((2000 ≤ 2023 ∧ 2023 ≤ 2099 ∧ 1 ≤ 6 ∧ 6 ≤ 12 ∧ 1 ≤ 15 ∧ 15 ≤ 31 ∧
      10 ≤ 23 ∧ 30 ≤ 59 ∧ 45 ≤ 59 ∧ 1 ≤ 4 ∧ 4 ≤ 7) ∧
     datetimeSet 2023 6 15 10 30 45 4 zeroRegs =
       some (dtWrittenState 2023 6 15 10 30 45 4 zeroRegs, true) ∧
     datetimeGet (dtWrittenState 2023 6 15 10 30 45 4 zeroRegs) =
       ⟨2023, 6, 15, 4, 10, 30, 45, 0⟩) :=
  ⟨by decide, datetime_roundtrip 2023 6 15 10 30 45 4 zeroRegs
    (by decide) (by decide) (by decide) (by decide) (by decide) (by decide)
    (by decide) (by decide) (by decide) (by decide) (by decide)⟩

/-! ### C2 — disabling the square-wave output -/

/-- Control register 0x09: alarm-1 interrupt enable (bit 0) set and
frequency-select bit RS1 (bit 3) set. -/
def exC2 : Regs := fun _ => 0x09

/-- C2 counterexample: with prior control byte 0x09,
`square_wave(freq=False)` writes back 0x0C, whose frequency-select
bits (mask 0x18) are NOT cleared and whose alarm-interrupt-enable
bits (mask 0x03) are NOT identical to their prior values — the code
computes `(ctrl & 0xF8) | 0x04`, clearing bits 0–1 and preserving
bits 3–7, contrary to the claim. -/
theorem square_wave_disable_counterexample :
    (square_wave 0 exC2).1 CONTROL_REG = 0x0C ∧
    ¬ ((0x0C : Nat) &&& 0x18 = 0 ∧
       (0x0C : Nat) &&& 0x03 = 0x09 &&& 0x03) :=
  ⟨rfl, by decide⟩

/-- Bit-level behaviour of the disable path `(ctrl & 0xF8) | 0x04`. -/
lemma sqw_disable_byte : ∀ c < 256,
    (((c &&& 0xF8) ||| 0x04) &&& 0x04 = 0x04) ∧
    (((c &&& 0xF8) ||| 0x04) &&& 0x03 = 0) ∧
    (((c &&& 0xF8) ||| 0x04) >>> 3 = c >>> 3) := by decide

/-- C2 (amended): for every prior control byte,
`square_wave(freq=False)` writes back a byte with the
interrupt-control bit (bit 2) set to 1, both alarm-interrupt-enable
bits (bits 0–1) cleared to 0, and bits 3–7 (including the two
frequency-select bits) identical to their prior values; the call
returns `True`. -/
theorem square_wave_disable_amended (s : Regs)
    (h : s CONTROL_REG < 256) :
    ((square_wave 0 s).1 CONTROL_REG &&& 0x04 = 0x04) ∧
    ((square_wave 0 s).1 CONTROL_REG &&& 0x03 = 0) ∧
    ((square_wave 0 s).1 CONTROL_REG >>> 3 = s CONTROL_REG >>> 3) ∧
    (square_wave 0 s).2 = true := by
  have hb := sqw_disable_byte (s CONTROL_REG) h
  exact ⟨hb.1, hb.2.1, hb.2.2, rfl⟩

/-- C2 witness: the amended statement at prior control byte 0x09. -/
theorem square_wave_disable_amended_witness :
    (exC2 CONTROL_REG < 256) ∧
    (((square_wave 0 exC2).1 CONTROL_REG &&& 0x04 = 0x04) ∧
     ((square_wave 0 exC2).1 CONTROL_REG &&& 0x03 = 0) ∧
     ((square_wave 0 exC2).1 CONTROL_REG >>> 3 = exC2 CONTROL_REG >>> 3) ∧
     (square_wave 0 exC2).2 = true) :=
  ⟨by decide, square_wave_disable_amended exC2 (by decide)⟩

/-! ### C3 — enabling an alarm interrupt and the INTCN bit -/

/-- C3 counterexample: from control byte 0, `alarm_int(enable=True,
alarm=1)` writes back 0x05, whose interrupt-control bit (bit 2) is 1,
not 0 as the claim states. -/
theorem alarm_int_enable_counterexample :
    (alarm_int true 1 zeroRegs).1 CONTROL_REG = 0x05 ∧
    ¬ ((0x05 : Nat) &&& 0x04 = 0) :=
  ⟨rfl, by decide⟩

/-- Bit-level behaviour of the two enable paths
`(ctrl & 0xFA) | 0x05` (alarm 1) and `(ctrl & 0xF9) | 0x06`
(alarm 2). -/
lemma alarm_int_enable_byte : ∀ c < 256,
    (((c &&& 0xFA) ||| 0x05) &&& 0x01 = 0x01) ∧
    (((c &&& 0xFA) ||| 0x05) &&& 0x04 = 0x04) ∧
    (((c &&& 0xF9) ||| 0x06) &&& 0x02 = 0x02) ∧
    (((c &&& 0xF9) ||| 0x06) &&& 0x04 = 0x04) := by decide

/-- C3 (amended): for every prior control byte and for alarm 1
(enable bit 0) and alarm 2 (enable bit 1), `alarm_int(enable=True,
alarm=k)` writes back a control byte in which alarm k's
interrupt-enable bit is 1 and the interrupt-control bit (bit 2) is
SET to 1 — the code forces INTCN to 1, not 0. -/
theorem alarm_int_enable_sets_INTCN (s : Regs)
    (h : s CONTROL_REG < 256) :
    ((alarm_int true 1 s).1 CONTROL_REG &&& 0x01 = 0x01 ∧
     (alarm_int true 1 s).1 CONTROL_REG &&& 0x04 = 0x04) ∧
    ((alarm_int true 2 s).1 CONTROL_REG &&& 0x02 = 0x02 ∧
     (alarm_int true 2 s).1 CONTROL_REG &&& 0x04 = 0x04) := by
  have hb := alarm_int_enable_byte (s CONTROL_REG) h
  exact ⟨⟨hb.1, hb.2.1⟩, hb.2.2.1, hb.2.2.2⟩

/-- C3 witness: the amended statement at prior control byte 0x09. -/
theorem alarm_int_enable_sets_INTCN_witness :
    (exC2 CONTROL_REG < 256) ∧
    (((alarm_int true 1 exC2).1 CONTROL_REG &&& 0x01 = 0x01 ∧
      (alarm_int true 1 exC2).1 CONTROL_REG &&& 0x04 = 0x04) ∧
     ((alarm_int true 2 exC2).1 CONTROL_REG &&& 0x02 = 0x02 ∧
      (alarm_int true 2 exC2).1 CONTROL_REG &&& 0x04 = 0x04)) :=
  ⟨by decide, alarm_int_enable_sets_INTCN exC2 (by decide)⟩

/-! ### C4 — disabling an alarm interrupt clears the wrong bit -/

/-- Control register 0x05 — exactly what the driver's own enable path
`alarm_int(enable=True, alarm=1)` produces from a zero register. -/
def exC4 : Regs := fun _ => 0x05

/-- Control register 0x06 — what `alarm_int(enable=True, alarm=2)`
produces from a zero register. -/
def exC4b : Regs := fun _ => 0x06

/-- C4: evaluation of the code at the failing inputs.
`alarm_int(enable=True, alarm=1)` from control 0 writes 0x05 (bits 0
and 2), but `alarm_int(enable=False, alarm=1)` from control 0x05
writes back 0x05 unchanged — bit 0 (A1IE, the bit enable sets) is
still 1, because the disable path `ctrl & 0xFD` clears bit 1 instead.
Likewise `alarm_int(enable=False, alarm=2)` from control 0x06 writes
0x02: bit 1 (A2IE) is still 1 and bit 2 (INTCN, not an alarm-enable
bit) was cleared instead. -/
theorem alarm_int_disable_wrong_bit :
    ((alarm_int true 1 zeroRegs).1 CONTROL_REG = 0x05 ∧
     (alarm_int false 1 exC4).1 CONTROL_REG = 0x05 ∧
     (0x05 : Nat) &&& 0x01 = 0x01) ∧
    ((alarm_int true 2 zeroRegs).1 CONTROL_REG = 0x06 ∧
     (alarm_int false 2 exC4b).1 CONTROL_REG = 0x02 ∧
     (0x02 : Nat) &&& 0x02 = 0x02 ∧ exC4b CONTROL_REG &&& 0x04 = 0x04) :=
  ⟨⟨rfl, rfl, by decide⟩, rfl, rfl, by decide, by decide⟩

/-! ### C5 — hour normalization on read -/

/-- Raw register content whose hour byte is 0x72: 12-hour mode
(bit 6), PM (bit 5), BCD hour 12 — a device-legal encoding of
12 PM. -/
def exC5 : Regs := fun a => if a = 2 then 0x72 else 0

/-- C5 counterexample: with hour register byte 0x72 the hour field
returned by `datetime()` is 24, outside the claimed range 0–23 (the
code adds 12 to the decoded 12-hour value whenever the PM bit is
set, so 12 PM maps to 24). -/
theorem hour_range_counterexample :
    exC5 2 = 0x72 ∧ (datetimeGet exC5).hour = 24 ∧
    ¬ ((datetimeGet exC5).hour ≤ 23) := by decide

/-- Range of `decodeHour` over all byte values, and the 24-hour-mode
case in which it stays within 0–23. -/
lemma decodeHour_byte : ∀ b < 256, decodeHour b ≤ 45 ∧
    (b &&& 0x40 = 0 → bcdtodec (b &&& 0x3F) ≤ 23 → decodeHour b ≤ 23) := by
  decide

/-- C5 (amended): for every raw register content whose hour byte is a
valid 24-hour encoding (12-hour-mode bit 6 clear and masked BCD value
at most 23) the hour field returned by `datetime()` is in 0–23; for
an arbitrary hour byte it can exceed 23 (0x72 decodes to 24) but
never exceeds 45. -/
theorem hour_range_amended (s : Regs) (h2 : s 2 < 256) :
    (s 2 &&& 0x40 = 0 → bcdtodec (s 2 &&& 0x3F) ≤ 23 →
      (datetimeGet s).hour ≤ 23) ∧
    (datetimeGet s).hour ≤ 45 := by
  have hb := decodeHour_byte (s 2) h2
  exact ⟨hb.2, hb.1⟩

/-- C5 witness: hour byte 0x23 (24-hour mode, 23:xx) decodes within
0–23, and within 0–45. -/
theorem hour_range_amended_witness :
    ((fun _ => (0x23 : Nat)) 2 < 256) ∧
    (datetimeGet (fun _ => 0x23)).hour ≤ 23 ∧
    (datetimeGet (fun _ => 0x23)).hour ≤ 45 :=
  ⟨by decide,
   (hour_range_amended (fun _ => 0x23) (by decide)).1 (by decide)
     (by decide),
   (hour_range_amended (fun _ => 0x23) (by decide)).2⟩

/-! ### C6 — check_alarm semantics -/

/-- Bit-level behaviour of clearing one pending flag from a status
byte: the targeted bit becomes 0, the other alarm's bit and all
higher bits are unchanged. -/
lemma check_alarm_byte : ∀ st < 256,
    (st &&& 1 ≠ 0 → (st &&& (255 ^^^ 1)) &&& 1 = 0 ∧
      (st &&& (255 ^^^ 1)) &&& 2 = st &&& 2 ∧
      (st &&& (255 ^^^ 1)) >>> 2 = st >>> 2) ∧
    (st &&& 2 ≠ 0 → (st &&& (255 ^^^ 2)) &&& 2 = 0 ∧
      (st &&& (255 ^^^ 2)) &&& 1 = st &&& 1 ∧
      (st &&& (255 ^^^ 2)) >>> 2 = st >>> 2) := by decide

/-- C6: for every status byte and alarm k (with j the other alarm):
if k's pending bit (`status & k` — bit 0 for alarm 1, bit 1 for
alarm 2) is set, `check_alarm(k)` returns `True` and issues exactly
one write, to the status register, of a value with that one bit
cleared and the other alarm's bit and all remaining bits unchanged,
and a second immediate call returns `False` with no write; if the bit
is clear, it returns `False`, issues no write, and leaves the state
untouched. -/
theorem check_alarm_spec (s : Regs) (hs : s STATUS_REG < 256)
    (k j : Nat) (hk : (k = 1 ∧ j = 2) ∨ (k = 2 ∧ j = 1)) :
    (s STATUS_REG &&& k ≠ 0 →
      (check_alarm k s).2.1 = true ∧
      (∃ v, (check_alarm k s).2.2 = [(STATUS_REG, v)] ∧
        (check_alarm k s).1 STATUS_REG = v ∧
        v &&& k = 0 ∧
        v &&& j = s STATUS_REG &&& j ∧
        v >>> 2 = s STATUS_REG >>> 2) ∧
      (check_alarm k ((check_alarm k s).1)).2.1 = false ∧
      (check_alarm k ((check_alarm k s).1)).2.2 = []) ∧
    (s STATUS_REG &&& k = 0 →
      (check_alarm k s).2.1 = false ∧
      (check_alarm k s).2.2 = [] ∧
      (check_alarm k s).1 = s) := by
  have hb := check_alarm_byte (s STATUS_REG) hs
  constructor
  · intro hne
    have he : check_alarm k s =
        (writeReg s STATUS_REG (s STATUS_REG &&& (255 ^^^ k)), true,
         [(STATUS_REG, s STATUS_REG &&& (255 ^^^ k))]) := by
      simp only [check_alarm, if_neg hne]
    have hbit : (s STATUS_REG &&& (255 ^^^ k)) &&& k = 0 ∧
        (s STATUS_REG &&& (255 ^^^ k)) &&& j = s STATUS_REG &&& j ∧
        (s STATUS_REG &&& (255 ^^^ k)) >>> 2 = s STATUS_REG >>> 2 := by
      rcases hk with ⟨hk1, hj1⟩ | ⟨hk2, hj2⟩
      · subst hk1; subst hj1; exact hb.1 hne
      · subst hk2; subst hj2; exact hb.2 hne
    have hsecond : check_alarm k ((check_alarm k s).1) =
        ((check_alarm k s).1, false, []) := by
      rw [he]
      have hst : (writeReg s STATUS_REG
          (s STATUS_REG &&& (255 ^^^ k))) STATUS_REG =
          s STATUS_REG &&& (255 ^^^ k) := rfl
      simp only [check_alarm, hst, if_pos hbit.1]
    refine ⟨by rw [he], ⟨s STATUS_REG &&& (255 ^^^ k), by rw [he],
      by rw [he]; rfl, hbit.1, hbit.2.1, hbit.2.2⟩, by rw [hsecond],
      by rw [hsecond]⟩
  · intro hz
    have he : check_alarm k s = (s, false, []) := by
      simp only [check_alarm, if_pos hz]
    exact ⟨by rw [he], by rw [he], by rw [he]⟩

/-- Status register 0x83: oscillator-stop flag plus both alarm
pending bits. -/
def exC6 : Regs := fun _ => 0x83

/-- C6 witness: the theorem at status byte 0x83 and alarm 1. -/
theorem check_alarm_spec_witness :
    (exC6 STATUS_REG < 256) ∧
    ((1 : Nat) = 1 ∧ (2 : Nat) = 2 ∨ (1 : Nat) = 2 ∧ (2 : Nat) = 1) ∧
    ((exC6 STATUS_REG &&& 1 ≠ 0 →
      (check_alarm 1 exC6).2.1 = true ∧
      (∃ v, (check_alarm 1 exC6).2.2 = [(STATUS_REG, v)] ∧
        (check_alarm 1 exC6).1 STATUS_REG = v ∧
        v &&& 1 = 0 ∧
        v &&& 2 = exC6 STATUS_REG &&& 2 ∧
        v >>> 2 = exC6 STATUS_REG >>> 2) ∧
      (check_alarm 1 ((check_alarm 1 exC6).1)).2.1 = false ∧
      (check_alarm 1 ((check_alarm 1 exC6).1)).2.2 = []) ∧
    (exC6 STATUS_REG &&& 1 = 0 →
      (check_alarm 1 exC6).2.1 = false ∧
      (check_alarm 1 exC6).2.2 = [] ∧
      (check_alarm 1 exC6).1 = exC6)) :=
  ⟨by decide, by decide,
   check_alarm_spec exC6 (by decide) 1 2 (by decide)⟩

/-! ### C7 — alarm-1 mask construction -/

/-- Alarm data bytes for fields below 80 (all valid second, minute,
hour, day values) keep the top mask bit 0, with or without the DY/DT
weekday flag, and fit in a byte. -/
lemma mask_clear_byte : ∀ v < 80, dectobcd v < 256 ∧
    dectobcd v &&& 0x80 = 0 ∧ dectobcd v ||| 64 < 256 ∧
    (dectobcd v ||| 64) &&& 0x80 = 0 := by decide

/-- Alarm data bytes or-ed with the 0x80 mask bit always carry the
top bit, with or without the DY/DT flag, and fit in a byte. -/
lemma mask_set_byte : ∀ v < 100, dectobcd v ||| 128 < 256 ∧
    (dectobcd v ||| 128) &&& 0x80 = 0x80 ∧
    dectobcd v ||| 128 ||| 64 < 256 ∧
    (dectobcd v ||| 128 ||| 64) &&& 0x80 = 0x80 := by decide

/-- C7: with `AL1_MATCH_DHMS` (all dimensions asserted) every written
alarm byte has its top don't-care bit 0; with `AL1_EVERY_S` (no
dimensions asserted) every written alarm byte has its top bit 1; and
`alarm1(time=(30,), match=AL1_MATCH_S)` writes the four bytes
`[0x30, 0x80, 0x80, 0x80]`, which decode back to second = 30 with the
second byte's mask bit 0 and the minute, hour and day/date mask bits
all 1. -/
theorem alarm1_mask_construction :
    (∀ (t0 t1 t2 t3 : Nat) (ie wd : Bool) (s : Regs),
      t0 ≤ 59 → t1 ≤ 59 → t2 ≤ 23 → t3 ≤ 31 →
      ∃ bs, (alarm1 [t0, t1, t2, t3] AL1_MATCH_DHMS ie wd s).map
        Prod.snd = some bs ∧ bs.length = 4 ∧
        ∀ b ∈ bs, b &&& 0x80 = 0) ∧
    (∀ (t0 t1 t2 t3 : Nat) (ie wd : Bool) (s : Regs),
      t0 ≤ 99 → t1 ≤ 99 → t2 ≤ 99 → t3 ≤ 99 →
      ∃ bs, (alarm1 [t0, t1, t2, t3] AL1_EVERY_S ie wd s).map
        Prod.snd = some bs ∧ bs.length = 4 ∧
        ∀ b ∈ bs, b &&& 0x80 = 0x80) ∧
    (∀ s : Regs, ∃ q, alarm1 [30] AL1_MATCH_S true false s = some q ∧
      q.2 = [0x30, 0x80, 0x80, 0x80] ∧
      bcdtodec (0x30 &&& 0x7F) = 30 ∧ (0x30 : Nat) &&& 0x80 = 0 ∧
      (0x80 : Nat) &&& 0x80 = 0x80) := by
  refine ⟨?_, ?_, fun s => ⟨_, rfl, rfl, by decide, by decide,
    by decide⟩⟩
  · intro t0 t1 t2 t3 ie wd s h0 h1 h2 h3
    have m0 := mask_clear_byte t0 (by omega)
    have m1 := mask_clear_byte t1 (by omega)
    have m2 := mask_clear_byte t2 (by omega)
    have m3 := mask_clear_byte t3 (by omega)
    cases wd
    · refine ⟨[dectobcd t0, dectobcd t1, dectobcd t2, dectobcd t3],
        ?_, rfl, ?_⟩
      · simp [alarm1, AL1_MATCH_DHMS, byteStore_of_lt m0.1,
          byteStore_of_lt m1.1, byteStore_of_lt m2.1,
          byteStore_of_lt m3.1]
      · intro b hb
        simp only [List.mem_cons, List.not_mem_nil, or_false] at hb
        rcases hb with rfl | rfl | rfl | rfl
        · exact m0.2.1
        · exact m1.2.1
        · exact m2.2.1
        · exact m3.2.1
    · refine ⟨[dectobcd t0, dectobcd t1, dectobcd t2,
        dectobcd t3 ||| 64], ?_, rfl, ?_⟩
      · simp [alarm1, AL1_MATCH_DHMS, byteStore_of_lt m0.1,
          byteStore_of_lt m1.1, byteStore_of_lt m2.1,
          byteStore_of_lt m3.2.2.1]
      · intro b hb
        simp only [List.mem_cons, List.not_mem_nil, or_false] at hb
        rcases hb with rfl | rfl | rfl | rfl
        · exact m0.2.1
        · exact m1.2.1
        · exact m2.2.1
        · exact m3.2.2.2
  · intro t0 t1 t2 t3 ie wd s h0 h1 h2 h3
    have m0 := mask_set_byte t0 (by omega)
    have m1 := mask_set_byte t1 (by omega)
    have m2 := mask_set_byte t2 (by omega)
    have m3 := mask_set_byte t3 (by omega)
    cases wd
    · refine ⟨[dectobcd t0 ||| 128, dectobcd t1 ||| 128,
        dectobcd t2 ||| 128, dectobcd t3 ||| 128], ?_, rfl, ?_⟩
      · simp [alarm1, AL1_EVERY_S, byteStore_of_lt m0.1,
          byteStore_of_lt m1.1, byteStore_of_lt m2.1,
          byteStore_of_lt m3.1,
          (by decide : ((15 : Nat) &&& 2) <<< 6 = 128),
          (by decide : ((15 : Nat) &&& 4) <<< 5 = 128),
          (by decide : ((15 : Nat) &&& 8) <<< 4 = 128)]
      · intro b hb
        simp only [List.mem_cons, List.not_mem_nil, or_false] at hb
        rcases hb with rfl | rfl | rfl | rfl
        · exact m0.2.1
        · exact m1.2.1
        · exact m2.2.1
        · exact m3.2.1
    · refine ⟨[dectobcd t0 ||| 128, dectobcd t1 ||| 128,
        dectobcd t2 ||| 128, dectobcd t3 ||| 128 ||| 64], ?_, rfl, ?_⟩
      · simp [alarm1, AL1_EVERY_S, byteStore_of_lt m0.1,
          byteStore_of_lt m1.1, byteStore_of_lt m2.1,
          byteStore_of_lt m3.2.2.1,
          (by decide : ((15 : Nat) &&& 2) <<< 6 = 128),
          (by decide : ((15 : Nat) &&& 4) <<< 5 = 128),
          (by decide : ((15 : Nat) &&& 8) <<< 4 = 128)]
      · intro b hb
        simp only [List.mem_cons, List.not_mem_nil, or_false] at hb
        rcases hb with rfl | rfl | rfl | rfl
        · exact m0.2.1
        · exact m1.2.1
        · exact m2.2.1
        · exact m3.2.2.2

/-- C7 witness: the three parts at concrete inputs — a full DHMS
alarm (30 s, 45 min, 12 h, day 15), an every-second alarm with the
same fields, and the spec's `alarm1((30,), AL1_MATCH_S)` scenario. -/
theorem alarm1_mask_construction_witness :
    ((30 ≤ 59 ∧ 45 ≤ 59 ∧ 12 ≤ 23 ∧ 15 ≤ 31) ∧
     (∃ bs, (alarm1 [30, 45, 12, 15] AL1_MATCH_DHMS true false
        zeroRegs).map Prod.snd = some bs ∧ bs.length = 4 ∧
        ∀ b ∈ bs, b &&& 0x80 = 0)) ∧
    ((30 ≤ 99 ∧ 45 ≤ 99 ∧ 12 ≤ 99 ∧ 15 ≤ 99) ∧
     (∃ bs, (alarm1 [30, 45, 12, 15] AL1_EVERY_S true false
        zeroRegs).map Prod.snd = some bs ∧ bs.length = 4 ∧
        ∀ b ∈ bs, b &&& 0x80 = 0x80)) ∧
    (∃ q, alarm1 [30] AL1_MATCH_S true false zeroRegs = some q ∧
      q.2 = [0x30, 0x80, 0x80, 0x80] ∧
      bcdtodec (0x30 &&& 0x7F) = 30 ∧ (0x30 : Nat) &&& 0x80 = 0 ∧
      (0x80 : Nat) &&& 0x80 = 0x80) :=
  ⟨⟨by decide, alarm1_mask_construction.1 30 45 12 15 true false
      zeroRegs (by decide) (by decide) (by decide) (by decide)⟩,
   ⟨by decide, alarm1_mask_construction.2.1 30 45 12 15 true false
      zeroRegs (by decide) (by decide) (by decide) (by decide)⟩,
   alarm1_mask_construction.2.2 zeroRegs⟩

/-! ### C8 — BCD round-trip -/

/-- C8: for every n with 0 ≤ n ≤ 99, `bcdtodec (dectobcd n) = n`,
where `dectobcd` packs the tens digit into the high nibble and the
ones digit into the low nibble. -/
theorem bcd_roundtrip (n : Nat) (h : n ≤ 99) :
    bcdtodec (dectobcd n) = n ∧
    dectobcd n >>> 4 = n / 10 ∧ dectobcd n &&& 0x0F = n % 10 :=
  ⟨(bcd_facts n (by omega)).1, (bcd_facts n (by omega)).2.1,
   (bcd_facts n (by omega)).2.2.1⟩

/-- C8 witness: the round trip at n = 45 (BCD 0x45). -/
theorem bcd_roundtrip_witness :
    (45 ≤ 99) ∧ (bcdtodec (dectobcd 45) = 45 ∧
      dectobcd 45 >>> 4 = 45 / 10 ∧ dectobcd 45 &&& 0x0F = 45 % 10) :=
  ⟨by decide, bcd_roundtrip 45 (by decide)⟩

/-! ### C9 — setting the time clears the oscillator-stop flag -/

/-- C9: for every input tuple and every prior status byte, whenever
`datetime(dt)` completes it returns `True`, and afterwards the status
register's bit 7 (oscillator-stop flag) is 0 while bits 0–6 keep the
values read during the clear (which the intervening 7-byte time write
did not touch). -/
theorem datetime_set_clears_OSF (y mo d h mi sec w : Nat) (s : Regs)
    (hs : s STATUS_REG < 256) (p : Regs × Bool)
    (hset : datetimeSet y mo d h mi sec w s = some p) :
    p.2 = true ∧ p.1 STATUS_REG &&& 0x80 = 0 ∧
    p.1 STATUS_REG &&& 0x7F = s STATUS_REG &&& 0x7F := by
  simp only [datetimeSet, Option.pure_def, Option.bind_eq_bind,
    Option.bind_eq_some] at hset
  obtain ⟨b3, hb3, b0, hb0, b1, hb1, b2, hb2, b4, hb4, b5, hb5, b6, hb6,
    hp⟩ := hset
  have hp' : p = (OSF_reset (writeBlock s DATETIME_REG
      [b0, b1, b2, b3, b4, b5, b6]), true) := (Option.some_inj.mp hp).symm
  subst hp'
  have hosf : OSF_reset (writeBlock s DATETIME_REG
      [b0, b1, b2, b3, b4, b5, b6]) STATUS_REG =
      s STATUS_REG &&& 0x7F := by
    show (writeBlock s DATETIME_REG [b0, b1, b2, b3, b4, b5, b6]
      STATUS_REG) &&& 0x7F = s STATUS_REG &&& 0x7F
    rw [writeBlock7_read15]
  refine ⟨rfl, ?_, ?_⟩
  · show OSF_reset (writeBlock s DATETIME_REG
      [b0, b1, b2, b3, b4, b5, b6]) STATUS_REG &&& 0x80 = 0
    rw [hosf]
    exact (osf_byte _ hs).1
  · show OSF_reset (writeBlock s DATETIME_REG
      [b0, b1, b2, b3, b4, b5, b6]) STATUS_REG &&& 0x7F =
      s STATUS_REG &&& 0x7F
    rw [hosf]
    exact (osf_byte _ hs).2

/-- C9 witness: from status byte 0x83 (oscillator-stop flag and both
alarm pending flags set), setting the time returns `True`, clears
bit 7, and keeps bits 0–6. -/
theorem datetime_set_clears_OSF_witness :
    (exC6 STATUS_REG < 256) ∧
    ∃ p, datetimeSet 2023 6 15 10 30 45 4 exC6 = some p ∧
      (p.2 = true ∧ p.1 STATUS_REG &&& 0x80 = 0 ∧
       p.1 STATUS_REG &&& 0x7F = exC6 STATUS_REG &&& 0x7F) :=
  ⟨by decide, ⟨_, rfl,
    datetime_set_clears_OSF 2023 6 15 10 30 45 4 exC6
      (by decide) _ rfl⟩⟩

/-! ### C10 — no input-range validation before the bus write -/

/-- C10 counterexample: the field value 160 (hour position) makes
`datetime(dt)` fail before any bus write — `dectobcd 160 = 256` does
not fit in a byte, so the `bytearray` store raises `ValueError` —
contradicting the claim that no error is raised for every integer
field value. -/
theorem no_validation_counterexample :
    datetimeSet 2023 6 15 160 30 45 4 zeroRegs = none ∧
    dectobcd 160 = 256 := ⟨rfl, by decide⟩

/-- C10 (amended): `dectobcd` is total and no range validation is
performed — any field whose BCD packing fits a byte (value ≤ 159) is
stored without error; the out-of-range hour 30 is written as byte
0x30 with `datetime` returning `True`; and `alarm1` with field value
100 writes the non-BCD byte 0xA0.  (Only a field of 160 or more makes
the byte store itself fail.) -/
theorem no_validation_amended :
    (∀ v < 160, byteStore (dectobcd v) = some (dectobcd v)) ∧
    (∀ s : Regs, ∃ p, datetimeSet 2023 6 15 30 45 10 4 s = some p ∧
      p.2 = true ∧ p.1 2 = 0x30) ∧
    (∀ s : Regs, ∃ q, alarm1 [100] AL1_MATCH_S true false s = some q ∧
      q.2 = [0xA0, 0x80, 0x80, 0x80]) := by
  refine ⟨by decide, fun s => ⟨_, rfl, rfl, rfl⟩, fun s => ⟨_, rfl, rfl⟩⟩

/-- C10 witness: the amended statement at field value 30 and the
all-zero register file. -/
theorem no_validation_amended_witness :
    ((30 : Nat) < 160 ∧
      byteStore (dectobcd 30) = some (dectobcd 30)) ∧
    (∃ p, datetimeSet 2023 6 15 30 45 10 4 zeroRegs = some p ∧
      p.2 = true ∧ p.1 2 = 0x30) ∧
    (∃ q, alarm1 [100] AL1_MATCH_S true false zeroRegs = some q ∧
      q.2 = [0xA0, 0x80, 0x80, 0x80]) :=
  ⟨⟨by decide, no_validation_amended.1 30 (by decide)⟩,
   no_validation_amended.2.1 zeroRegs,
   no_validation_amended.2.2 zeroRegs⟩

end DS3231
